import Mathlib

/-!
# Verification of the nyc-urban-intelligence ingestion subsystem

Shallow embedding of the resilient connector / ingestion-supervision
subsystem: `BaseConnector` (src/connectors/base/BaseConnector.js),
`MessageQueue` (src/pipeline/ingestion/MessageQueue.js) and
`DataIngestionService` (src/pipeline/ingestion/DataIngestionService.js).

JavaScript numbers that hold epoch milliseconds and counters are modelled
as `Nat` (they stay far below 2^53, so no overflow is observable);
latencies averaged with floating point are modelled over `ℚ`; nullable
values are `Option`; JavaScript truthiness of the nullable fields the code
branches on is modelled explicitly (`0`, `""` and `null` are falsy).
Timers are modelled by recording the absolute firing time in the state;
the asynchronous interleaving is a sequence of explicit steps
(`pollData` at a start time and with a fetch outcome, breaker-timer
expiry as `closeCircuitBreaker`).
-/

namespace UrbanIntel

/-- Truthiness of a nullable JS number: `null`, `undefined` and `0` are falsy. -/
def truthyNum : Option Int → Bool
  | none => false
  | some t => t != 0

/-- Truthiness of a nullable JS string: `null`, `undefined` and `""` are falsy. -/
def truthyStr : Option String → Bool
  | none => false
  | some s => s != ""

/-- Decimal rendering of a natural number, as JS template literals render
`Date.now()`: most-significant digit first, `0` rendered as `"0"`. -/
def jsNatToString (n : Nat) : String :=
  if n = 0 then "0" else ⟨((Nat.digits 10 n).map Nat.digitChar).reverse⟩

/-! ## BaseConnector (src/connectors/base/BaseConnector.js) -/

/-- `this.config` of `BaseConnector` (defaults from the constructor). -/
structure ConnConfig where
  pollInterval : Nat := 30000
  maxRetries : Nat := 3
  retryDelay : Nat := 5000
  circuitBreakerTimeout : Nat := 60000
  timeout : Nat := 10000
  deriving DecidableEq

/-- `this.metrics` of `BaseConnector`. -/
structure ConnMetrics where
  totalFetches : Nat := 0
  successfulFetches : Nat := 0
  failedFetches : Nat := 0
  avgResponseTime : ℚ := 0
  lastFetchTime : Option Nat := none
  deriving DecidableEq

/-- The record payload a connector fetches: a map of fields of which the
supervisor inspects `timestamp` and `source` (data contract §3). -/
structure RawRecord where
  timestamp : Option Int := none
  source : Option String := none
  deriving DecidableEq

/-- Mutable per-connector state of `BaseConnector` (timers are modelled by
their absolute firing time). -/
structure ConnState where
  isRunning : Bool := false
  retryCount : Nat := 0
  circuitBreakerOpen : Bool := false
  lastPollTime : Option Nat := none
  lastSuccessTime : Option Nat := none
  pollTimer : Option Nat := none
  circuitBreakerTimer : Option Nat := none
  metrics : ConnMetrics := {}
  deriving DecidableEq

/-- Signals a `BaseConnector` emits (`this.emit(...)`). -/
inductive ConnEvent where
  | start
  | stop
  | data (d : RawRecord)
  | error (msg : String)
  | circuitBreakerOpen
  | circuitBreakerClosed
  deriving DecidableEq

/-- Outcome of one `fetchData()` call: it resolves (possibly with `null`)
or rejects, after `latency` milliseconds. -/
inductive FetchOutcome where
  | success (d : Option RawRecord) (latency : Nat)
  | failure (msg : String) (latency : Nat)
  deriving DecidableEq

/-- The latency of a fetch outcome (`Date.now() - startTime`). -/
def FetchOutcome.latency : FetchOutcome → Nat
  | .success _ l => l
  | .failure _ l => l

namespace BaseConnector

/-- `updateAvgResponseTime(newTime)`: reads `this.metrics.successfulFetches`
(already incremented by the caller) and the previous average. -/
def updateAvgResponseTime (successfulFetches : Nat) (currentAvg : ℚ) (newTime : Nat) : ℚ :=
  ((currentAvg * ((successfulFetches : ℚ) - 1)) + (newTime : ℚ)) / (successfulFetches : ℚ)

/-- `openCircuitBreaker()` at time `now`: no-op when already open; otherwise
opens the breaker, arms the one-shot close timer and emits the signal. -/
def openCircuitBreaker (cfg : ConnConfig) (s : ConnState) (now : Nat) : ConnState × List ConnEvent :=
  if s.circuitBreakerOpen then (s, [])
  else
    ({ s with
        circuitBreakerOpen := true
        circuitBreakerTimer := some (now + cfg.circuitBreakerTimeout) },
      [.circuitBreakerOpen])

/-- `closeCircuitBreaker()`: no-op when closed; otherwise closes the breaker,
resets `retryCount` and cancels the timer. Also models the breaker timer
firing after the cool-down. -/
def closeCircuitBreaker (s : ConnState) : ConnState × List ConnEvent :=
  if s.circuitBreakerOpen then
    ({ s with
        circuitBreakerOpen := false
        retryCount := 0
        circuitBreakerTimer := none },
      [.circuitBreakerClosed])
  else (s, [])

/-- `schedulNextPoll()` at time `now`: picks the cool-down delay while the
breaker is open, the normal poll interval otherwise. -/
def schedulNextPoll (cfg : ConnConfig) (s : ConnState) (now : Nat) : ConnState :=
  if s.isRunning then
    let delay := if s.circuitBreakerOpen then cfg.circuitBreakerTimeout else cfg.pollInterval
    { s with pollTimer := some (now + delay) }
  else s

/-- `handleSuccessfulFetch(data, responseTime)` at time `now` (the time the
fetch resolved). Emits `data` only when the result is truthy. -/
def handleSuccessfulFetch (s : ConnState) (data : Option RawRecord)
    (responseTime : Nat) (now : Nat) : ConnState × List ConnEvent :=
  let succ := s.metrics.successfulFetches + 1
  let s := { s with
    metrics := { s.metrics with
      successfulFetches := succ
      avgResponseTime := updateAvgResponseTime succ s.metrics.avgResponseTime responseTime
      lastFetchTime := some now }
    lastSuccessTime := some now
    retryCount := 0 }
  let (s, evs) := if s.circuitBreakerOpen then closeCircuitBreaker s else (s, [])
  match data with
  | some d => (s, evs ++ [.data d])
  | none => (s, evs)

/-- `handleFailedFetch(error, responseTime)` at time `now`: bumps the failure
counters and opens the breaker once `retryCount` reaches `maxRetries`. -/
def handleFailedFetch (cfg : ConnConfig) (s : ConnState) (msg : String)
    (now : Nat) : ConnState × List ConnEvent :=
  let s := { s with
    metrics := { s.metrics with failedFetches := s.metrics.failedFetches + 1 }
    retryCount := s.retryCount + 1 }
  let (s, evs) :=
    if s.retryCount ≥ cfg.maxRetries then openCircuitBreaker cfg s now else (s, [])
  (s, evs ++ [.error msg])

/-- `pollData()` started at time `now`, with the fetch resolving as `f`:
counts the attempt, skips the fetch while the breaker is open, otherwise
dispatches to the success/failure handler, then schedules the next cycle. -/
def pollData (cfg : ConnConfig) (s : ConnState) (now : Nat)
    (f : FetchOutcome) : ConnState × List ConnEvent :=
  if s.isRunning then
    let s := { s with
      lastPollTime := some now
      metrics := { s.metrics with totalFetches := s.metrics.totalFetches + 1 } }
    if s.circuitBreakerOpen then
      (schedulNextPoll cfg s now, [])
    else
      let (s, evs) :=
        match f with
        | .success d latency => handleSuccessfulFetch s d latency (now + latency)
        | .failure msg latency => handleFailedFetch cfg s msg (now + latency)
      (schedulNextPoll cfg s (now + f.latency), evs)
  else (s, [])

/-- Errors `start()` could raise to its caller (the spec names
`AlreadyRunningError`). -/
inductive StartError where
  | alreadyRunning
  deriving DecidableEq

/-- `start()`: when already running it logs a warning and returns normally;
otherwise it sets `isRunning`, emits the start signal and triggers the
first poll cycle (executed as a separate `pollData` step). -/
def start (s : ConnState) : Except StartError (ConnState × List ConnEvent) :=
  if s.isRunning then .ok (s, [])
  else .ok ({ s with isRunning := true }, [.start])

/-- The health statuses `getHealth()` can report. -/
inductive HealthStatus where
  | healthy
  | degraded
  | unhealthy
  | circuitBreakerOpen
  deriving DecidableEq

/-- The object `getHealth()` returns. -/
structure HealthReport where
  status : HealthStatus
  isRunning : Bool
  circuitBreakerOpen : Bool
  timeSinceLastSuccess : Option Int
  successRate : ℚ
  deriving DecidableEq

/-- `getHealth()` at time `now`. `timeSinceLastSuccess` is `null` when there
has been no success; the `unhealthy` branch tests its truthiness before
comparing it with `3 × pollInterval`. -/
def getHealth (cfg : ConnConfig) (s : ConnState) (now : Nat) : HealthReport :=
  let timeSinceLastSuccess : Option Int :=
    match s.lastSuccessTime with
    | some t => some ((now : Int) - (t : Int))
    | none => none
  let status :=
    if s.circuitBreakerOpen then HealthStatus.circuitBreakerOpen
    else if truthyNum timeSinceLastSuccess
        ∧ timeSinceLastSuccess.getD 0 > 3 * (cfg.pollInterval : Int) then
      HealthStatus.unhealthy
    else if s.retryCount > 0 then HealthStatus.degraded
    else HealthStatus.healthy
  { status := status
    isRunning := s.isRunning
    circuitBreakerOpen := s.circuitBreakerOpen
    timeSinceLastSuccess := timeSinceLastSuccess
    successRate :=
      if s.metrics.totalFetches > 0 then
        (s.metrics.successfulFetches : ℚ) / (s.metrics.totalFetches : ℚ)
      else 0 }

/-- Iterated poll cycles: fold `pollData` over a list of
(start time, fetch outcome) pairs, discarding the emitted events. -/
def pollCycles (cfg : ConnConfig) (s : ConnState) (l : List (Nat × FetchOutcome)) : ConnState :=
  l.foldl (fun st p => (pollData cfg st p.1 p.2).1) s

/-- One fetch outcome applied directly through the success/failure handler
(the body of `pollData`'s try/catch, without the breaker skip). -/
def applyFetchOutcome (cfg : ConnConfig) (s : ConnState) (now : Nat)
    (f : FetchOutcome) : ConnState :=
  match f with
  | .success d latency => (handleSuccessfulFetch s d latency (now + latency)).1
  | .failure msg latency => (handleFailedFetch cfg s msg (now + latency)).1

/-- Fold of `applyFetchOutcome` over a list of (start time, outcome) pairs. -/
def runOutcomes (cfg : ConnConfig) (s : ConnState) (l : List (Nat × FetchOutcome)) : ConnState :=
  l.foldl (fun st p => applyFetchOutcome cfg st p.1 p.2) s

/-- The latencies of the successful fetches in a list of outcomes. -/
def successLatencies (l : List (Nat × FetchOutcome)) : List Nat :=
  l.filterMap fun p =>
    match p.2 with
    | .success _ latency => some latency
    | .failure _ _ => none

end BaseConnector

/-! ## MessageQueue (src/pipeline/ingestion/MessageQueue.js) -/

/-- The configured queue backend (`config.type`). -/
inductive QueueType where
  | kafka
  | redis
  | memory
  deriving DecidableEq

/-- The `ingestion` block `DataIngestionService` adds to a record. -/
structure IngestionMeta where
  connector : String
  receivedAt : Nat
  serviceVersion : String := "1.0.0"
  messageId : String
  deriving DecidableEq

/-- A record enriched with ingestion metadata (`{...data, ingestion}`). -/
structure EnrichedRecord where
  timestamp : Option Int
  source : Option String
  ingestion : IngestionMeta
  deriving DecidableEq

/-- The object `sendToDeadLetterQueue` publishes. -/
structure DeadLetterEntry where
  originalData : Option RawRecord
  errMessage : String
  errTimestamp : Nat
  connector : String
  failureTime : Nat
  deriving DecidableEq

/-- Payloads the ingestion pipeline publishes. -/
inductive QPayload where
  | raw (e : EnrichedRecord)
  | dead (d : DeadLetterEntry)
  | healthProbe
  deriving DecidableEq

/-- The `QueueMessage` envelope built by `MessageQueue.publish`. -/
structure QueueMessage where
  id : String
  timestamp : Nat
  topic : String
  data : QPayload
  metaSource : String
  deriving DecidableEq

/-- `MessageQueue` state: backend type, the `isConnected` flag, the
in-memory per-topic buffers and the subscribed topics. -/
structure MQState where
  qtype : QueueType
  isConnected : Bool
  messageBuffer : List (String × List QueueMessage)
  subscriptions : List String
  deriving DecidableEq

namespace MessageQueue

/-- `generateMessageId()` of MessageQueue, at `Date.now() = now` with the
9-character draw `rand` taken from `Math.random().toString(36).substr(2, 9)`. -/
def generateMessageId (now : Nat) (rand : String) : String :=
  "msg_" ++ jsNatToString now ++ "_" ++ rand

/-- Lookup of one topic's list in the buffer map. -/
def bufGet (buf : List (String × List QueueMessage)) (topic : String) :
    Option (List QueueMessage) :=
  (buf.find? (fun p => p.1 = topic)).map Prod.snd

/-- `map.set(topic, msgs)`: replace the topic's entry, or append a new one. -/
def bufSet (buf : List (String × List QueueMessage)) (topic : String)
    (msgs : List QueueMessage) : List (String × List QueueMessage) :=
  if (buf.find? (fun p => p.1 = topic)).isSome then
    buf.map fun p => if p.1 = topic then (p.1, msgs) else p
  else buf ++ [(topic, msgs)]

/-- `setupMemory()`: fresh buffers for the four configured topics. -/
def setupMemory : List (String × List QueueMessage) :=
  [("raw-data", []), ("processed-data", []), ("predictions", []), ("alerts", [])]

/-- `setupQueue()` with the configured backend type and the initialization
outcome of the external backend (`init` is unused for `memory`): on success
`isConnected` is set; on failure the queue falls back to the memory backend
and the catch block leaves `isConnected` untouched (`false`). -/
def setupQueue (t : QueueType) (init : Except String Unit) : MQState :=
  match t with
  | .memory =>
    { qtype := .memory, isConnected := true, messageBuffer := setupMemory
      subscriptions := [] }
  | _ =>
    match init with
    | .ok _ =>
      { qtype := t, isConnected := true, messageBuffer := [], subscriptions := [] }
    | .error _ =>
      { qtype := .memory, isConnected := false, messageBuffer := setupMemory
        subscriptions := [] }

/-- `publishToMemory(topic, messageData)`: create the topic on demand and
append the message (delivery to subscribers is deferred). -/
def publishToMemory (mq : MQState) (topic : String) (msg : QueueMessage) : MQState :=
  let buf :=
    if (bufGet mq.messageBuffer topic).isSome then mq.messageBuffer
    else bufSet mq.messageBuffer topic []
  { mq with messageBuffer := bufSet buf topic ((bufGet buf topic).getD [] ++ [msg]) }

/-- `publish(topic, message, metadata)` at `Date.now() = now` with random
draw `rand`; `ext` is the outcome of the external broker's send for the
kafka/redis backends. Returns the new state and the envelope id, or the
propagated error. -/
def publish (mq : MQState) (topic : String) (payload : QPayload)
    (metaSource : String) (now : Nat) (rand : String)
    (ext : Except String Unit) : Except String (MQState × String) :=
  let msg : QueueMessage :=
    { id := generateMessageId now rand
      timestamp := now
      topic := topic
      data := payload
      metaSource := metaSource }
  match mq.qtype with
  | .memory => .ok (publishToMemory mq topic msg, msg.id)
  | _ =>
    match ext with
    | .ok _ => .ok (mq, msg.id)
    | .error e => .error e

/-- `subscribe(topic, callback)`: registers a listener; always succeeds. -/
def subscribe (mq : MQState) (topic : String) : MQState :=
  { mq with subscriptions := topic :: mq.subscriptions }

/-- The object `healthCheck()` resolves with. -/
structure HealthRes where
  status : String
  connected : Bool
  deriving DecidableEq

/-- `healthCheck()`: for the memory backend nothing is probed and the result
reports `healthy` together with the stored `isConnected` flag; for the
external backends the probe outcome `ext` decides. -/
def healthCheck (mq : MQState) (ext : Except String Unit) : HealthRes :=
  match mq.qtype with
  | .memory => { status := "healthy", connected := mq.isConnected }
  | _ =>
    match ext with
    | .ok _ => { status := "healthy", connected := mq.isConnected }
    | .error _ => { status := "unhealthy", connected := false }

end MessageQueue

/-! ## DataIngestionService (src/pipeline/ingestion/DataIngestionService.js) -/

/-- The registry entry stored by `registerConnector`. -/
structure RegistryEntry where
  registeredAt : Nat
  lastDataReceived : Option Nat := none
  errorCount : Nat := 0
  dataCount : Nat := 0
  isHealthy : Bool := true
  deriving DecidableEq

/-- `DataIngestionService` state (the parts the claims are about). -/
structure SupState where
  connectors : List (String × RegistryEntry)
  mq : MQState
  deadLetterQueueEnabled : Bool := true
  connectorsRunning : Nat := 0
  totalDataReceived : Nat := 0
  totalErrorsHandled : Nat := 0
  deriving DecidableEq

namespace DataIngestionService

/-- `generateMessageId()` of DataIngestionService, at `Date.now() = now`
with the 9-character draw `rand` from `Math.random().toString(36).substr(2, 9)`. -/
def generateMessageId (now : Nat) (rand : String) : String :=
  "ing_" ++ jsNatToString now ++ "_" ++ rand

/-- Lookup of a registry entry (`this.connectors.get(name)`). -/
def getEntry (sup : SupState) (name : String) : Option RegistryEntry :=
  (sup.connectors.find? (fun p => p.1 = name)).map Prod.snd

/-- Update the named registry entry in place. -/
def updateEntry (sup : SupState) (name : String) (f : RegistryEntry → RegistryEntry) :
    SupState :=
  { sup with connectors := sup.connectors.map fun p =>
      if p.1 = name then (p.1, f p.2) else p }

/-- `validateData(data)` at `Date.now() = now`: truthiness checks on
`timestamp` and `source`, then the timestamp window
`[now - 1h, now + 1min]`. -/
def validateData (ts : Option Int) (src : Option String) (now : Int) : Bool :=
  if ¬(truthyNum ts ∧ truthyStr src) then false
  else if ts.getD 0 < now - 3600000 ∨ ts.getD 0 > now + 60000 then false
  else true

/-- `sendToDeadLetterQueue(connectorName, error, data)` at time `now`:
publishes the dead-letter object; a publish failure is only logged. -/
def sendToDeadLetterQueue (sup : SupState) (name : String) (errMsg : String)
    (data : Option RawRecord) (now : Nat) (rand : String)
    (ext : Except String Unit) : SupState :=
  let entry : DeadLetterEntry :=
    { originalData := data
      errMessage := errMsg
      errTimestamp := now
      connector := name
      failureTime := now }
  match MessageQueue.publish sup.mq "dead-letter-queue" (.dead entry)
      "data-ingestion-service" now rand ext with
  | .ok (mq', _) => { sup with mq := mq' }
  | .error _ => sup

/-- `handleConnectorError(connectorName, error, data = null)` at time `now`:
bumps the entry's error count (forcing `isHealthy = false` past 5 errors)
and writes to the dead-letter queue only when a data payload is present. -/
def handleConnectorError (sup : SupState) (name : String) (errMsg : String)
    (data : Option RawRecord) (now : Nat) (rand : String)
    (ext : Except String Unit) : SupState :=
  let sup :=
    match getEntry sup name with
    | some _ =>
      updateEntry sup name fun e =>
        let ec := e.errorCount + 1
        { e with errorCount := ec, isHealthy := if ec > 5 then false else e.isHealthy }
    | none => sup
  let sup := { sup with totalErrorsHandled := sup.totalErrorsHandled + 1 }
  if sup.deadLetterQueueEnabled ∧ data.isSome then
    sendToDeadLetterQueue sup name errMsg data now rand ext
  else sup

/-- `handleConnectorData(connectorName, data)` at time `now`, with `rId` the
random draw for the ingestion message id and `rQ` the draw used by the
queue publish; `ext` is the external broker outcome. Updates the entry,
enriches and validates the record, publishes it to `raw-data` or routes it
to the error/dead-letter path. -/
def handleConnectorData (sup : SupState) (name : String) (data : RawRecord)
    (now : Nat) (rId rQ : String) (ext : Except String Unit) : SupState :=
  match getEntry sup name with
  | none => sup
  | some _ =>
    let sup := updateEntry sup name fun e =>
      { e with
        lastDataReceived := some now
        dataCount := e.dataCount + 1
        isHealthy := true }
    let sup := { sup with totalDataReceived := sup.totalDataReceived + 1 }
    let enriched : EnrichedRecord :=
      { timestamp := data.timestamp
        source := data.source
        ingestion :=
          { connector := name
            receivedAt := now
            messageId := generateMessageId now rId } }
    if validateData enriched.timestamp enriched.source now then
      match MessageQueue.publish sup.mq "raw-data" (.raw enriched) name now rQ ext with
      | .ok (mq', _) => { sup with mq := mq' }
      | .error e => handleConnectorError sup name e (some data) now rQ ext
    else
      handleConnectorError sup name "Data validation failed" (some data) now rQ ext

/-- The listeners `registerConnector` wires: `data` and `error` events are
forwarded to the handlers (the error listener passes no data payload),
`start`/`stop` adjust `connectorsRunning`; the breaker signals have no
supervisor listener. -/
def dispatchEvent (sup : SupState) (name : String) (ev : ConnEvent)
    (now : Nat) (rId rQ : String) (ext : Except String Unit) : SupState :=
  match ev with
  | .data d => handleConnectorData sup name d now rId rQ ext
  | .error msg => handleConnectorError sup name msg none now rQ ext
  | .start => { sup with connectorsRunning := sup.connectorsRunning + 1 }
  | .stop => { sup with connectorsRunning := sup.connectorsRunning - 1 }
  | .circuitBreakerOpen => sup
  | .circuitBreakerClosed => sup

/-- Deliver a list of connector events to the supervisor in order. -/
def dispatchEvents (sup : SupState) (name : String) (evs : List ConnEvent)
    (now : Nat) (rId rQ : String) (ext : Except String Unit) : SupState :=
  evs.foldl (fun st ev => dispatchEvent st name ev now rId rQ ext) sup

end DataIngestionService

/-! ## Helper lemmas -/

open MessageQueue DataIngestionService BaseConnector

theorem digitChar_inj {a b : Nat} (ha : a < 10) (hb : b < 10)
    (h : Nat.digitChar a = Nat.digitChar b) : a = b := by
  interval_cases a <;> interval_cases b <;> first | rfl | exact absurd h (by decide)

theorem mapDigitChar_inj : ∀ (l₁ l₂ : List Nat), (∀ x ∈ l₁, x < 10) → (∀ x ∈ l₂, x < 10) →
    l₁.map Nat.digitChar = l₂.map Nat.digitChar → l₁ = l₂ := by
  intro l₁
  induction l₁ with
  | nil => intro l₂ _ _ h; cases l₂ <;> simp_all
  | cons a t ih =>
    intro l₂ h1 h2 h
    cases l₂ with
    | nil => simp_all
    | cons b t' =>
      simp only [List.map_cons, List.cons.injEq] at h
      have ha : a < 10 := h1 a (List.mem_cons_self a t)
      have hb : b < 10 := h2 b (List.mem_cons_self b t')
      have := digitChar_inj ha hb h.1
      have := ih t' (fun x hx => h1 x (List.mem_cons_of_mem _ hx))
        (fun x hx => h2 x (List.mem_cons_of_mem _ hx)) h.2
      simp_all

theorem digitsRender_eq_zeroStr {n : Nat} (hn : n ≠ 0)
    (h : (⟨((Nat.digits 10 n).map Nat.digitChar).reverse⟩ : String) = "0") : False := by
  have bound : ∀ x ∈ Nat.digits 10 n, x < 10 := fun x hx =>
    Nat.digits_lt_base (by norm_num) hx
  have hd : ((Nat.digits 10 n).map Nat.digitChar).reverse = ['0'] :=
    congrArg String.data h
  have hsing : ((Nat.digits 10 n).map Nat.digitChar) = ['0'] := by
    have := congrArg List.reverse hd
    simpa using this
  have hdig : Nat.digits 10 n = [0] := by
    rcases hl : Nat.digits 10 n with _ | ⟨d, t⟩
    · rw [hl] at hsing; simp at hsing
    · rw [hl] at hsing
      rcases t with _ | ⟨d', t'⟩
      · simp only [List.map_cons, List.map_nil, List.cons.injEq] at hsing
        have hd10 : d < 10 := bound d (by rw [hl]; exact List.mem_cons_self _ _)
        have : d = 0 := digitChar_inj hd10 (by norm_num) hsing.1
        simp [this]
      · simp at hsing
  have hround := Nat.ofDigits_digits 10 n
  rw [hdig] at hround
  simp [Nat.ofDigits] at hround
  exact hn hround.symm

theorem jsNatToString_inj {m n : Nat} (h : jsNatToString m = jsNatToString n) : m = n := by
  unfold jsNatToString at h
  have bound : ∀ k : Nat, ∀ x ∈ Nat.digits 10 k, x < 10 := fun k x hx =>
    Nat.digits_lt_base (by norm_num) hx
  by_cases hm : m = 0 <;> by_cases hn : n = 0 <;>
    simp only [hm, hn, if_true, if_neg, reduceIte] at h
  · omega
  · exact absurd h.symm (fun hh => digitsRender_eq_zeroStr hn hh)
  · exact absurd h (fun hh => digitsRender_eq_zeroStr hm hh)
  · have hd : ((Nat.digits 10 m).map Nat.digitChar).reverse
        = ((Nat.digits 10 n).map Nat.digitChar).reverse :=
      congrArg String.data h
    have hmap := List.reverse_injective hd
    have := mapDigitChar_inj _ _ (bound m) (bound n) hmap
    have := congrArg (Nat.ofDigits 10) this
    rwa [Nat.ofDigits_digits, Nat.ofDigits_digits] at this

/-- Injectivity of the `prefix_timestamp_draw` message-id shape, given draws
of equal length (the code always draws 9 characters). -/
theorem messageId_inj (pre : String) {t₁ t₂ : Nat} {r₁ r₂ : String}
    (hlen : r₁.length = r₂.length)
    (h : pre ++ jsNatToString t₁ ++ "_" ++ r₁ = pre ++ jsNatToString t₂ ++ "_" ++ r₂) :
    t₁ = t₂ ∧ r₁ = r₂ := by
  have hdata : ((pre.data ++ (jsNatToString t₁).data) ++ ['_']) ++ r₁.data
      = ((pre.data ++ (jsNatToString t₂).data) ++ ['_']) ++ r₂.data :=
    congrArg String.data h
  have hl : r₁.data.length = r₂.data.length := hlen
  obtain ⟨h1, h2⟩ := List.append_inj' hdata hl
  obtain ⟨h3, -⟩ := List.append_inj' h1 rfl
  have h4 := List.append_cancel_left h3
  have ht : jsNatToString t₁ = jsNatToString t₂ := congrArg String.mk h4
  exact ⟨jsNatToString_inj ht, congrArg String.mk h2⟩

theorem find?_update_entry (l : List (String × RegistryEntry)) (name : String)
    (f : RegistryEntry → RegistryEntry) :
    (l.map fun p => if p.1 = name then (p.1, f p.2) else p).find?
        (fun p => p.1 = name)
      = (l.find? (fun p => p.1 = name)).map fun p => (p.1, f p.2) := by
  induction l with
  | nil => rfl
  | cons a t ih =>
    by_cases h : a.1 = name
    · simp [List.find?, h]
    · simp [List.find?, h, ih]

theorem getEntry_updateEntry (sup : SupState) (name : String)
    (f : RegistryEntry → RegistryEntry) :
    getEntry (updateEntry sup name f) name = (getEntry sup name).map f := by
  unfold getEntry updateEntry
  simp only [find?_update_entry, Option.map_map]
  rfl

theorem find?_set_buf (l : List (String × List QueueMessage)) (topic : String)
    (msgs : List QueueMessage) :
    (l.map fun p => if p.1 = topic then (p.1, msgs) else p).find?
        (fun p => p.1 = topic)
      = (l.find? (fun p => p.1 = topic)).map fun p => (p.1, msgs) := by
  induction l with
  | nil => rfl
  | cons a t ih =>
    by_cases h : a.1 = topic
    · simp [List.find?, h]
    · simp [List.find?, h, ih]

theorem bufGet_bufSet_self (l : List (String × List QueueMessage)) (topic : String)
    (msgs : List QueueMessage) : bufGet (bufSet l topic msgs) topic = some msgs := by
  unfold bufGet bufSet
  by_cases h : (l.find? (fun p => p.1 = topic)).isSome
  · rw [if_pos h, find?_set_buf]
    obtain ⟨p, hp⟩ := Option.isSome_iff_exists.mp h
    simp [hp]
  · rw [if_neg h]
    rw [Option.not_isSome_iff_eq_none] at h
    rw [List.find?_append, h]
    simp [List.find?]

theorem find?_set_buf_other (l : List (String × List QueueMessage)) {t topic : String}
    (hne : t ≠ topic) (msgs : List QueueMessage) :
    (l.map fun p => if p.1 = topic then (p.1, msgs) else p).find?
        (fun p => p.1 = t)
      = l.find? (fun p => p.1 = t) := by
  induction l with
  | nil => rfl
  | cons a tl ih =>
    by_cases ha : a.1 = topic
    · simp [List.find?, ha, hne.symm, ih]
    · simp only [List.map_cons, if_neg ha, List.find?]
      by_cases hat : a.1 = t
      · simp [hat]
      · simp [hat, ih]

theorem bufGet_bufSet_other (l : List (String × List QueueMessage)) {t topic : String}
    (hne : t ≠ topic) (msgs : List QueueMessage) :
    bufGet (bufSet l topic msgs) t = bufGet l t := by
  unfold bufGet bufSet
  by_cases h : (l.find? (fun p => p.1 = topic)).isSome
  · rw [if_pos h, find?_set_buf_other l hne]
  · rw [if_neg h, List.find?_append]
    have : ([(topic, msgs)].find? (fun p => p.1 = t)) = none := by
      simp [List.find?, hne.symm]
    simp [this]

theorem bufGet_publishToMemory_self (mq : MQState) (topic : String) (msg : QueueMessage) :
    bufGet (MessageQueue.publishToMemory mq topic msg).messageBuffer topic
      = some ((bufGet mq.messageBuffer topic).getD [] ++ [msg]) := by
  unfold MessageQueue.publishToMemory
  by_cases h : (bufGet mq.messageBuffer topic).isSome
  · rw [if_pos h, bufGet_bufSet_self]
  · rw [if_neg h]
    rw [Option.not_isSome_iff_eq_none] at h
    rw [bufGet_bufSet_self, bufGet_bufSet_self, h]
    rfl

theorem bufGet_publishToMemory_other (mq : MQState) {t topic : String}
    (hne : t ≠ topic) (msg : QueueMessage) :
    bufGet (MessageQueue.publishToMemory mq topic msg).messageBuffer t
      = bufGet mq.messageBuffer t := by
  unfold MessageQueue.publishToMemory
  by_cases h : (bufGet mq.messageBuffer topic).isSome
  · rw [if_pos h, bufGet_bufSet_other _ hne]
  · rw [if_neg h, bufGet_bufSet_other _ hne, bufGet_bufSet_other _ hne]

theorem schedulNextPoll_eq (cfg : ConnConfig) (s : ConnState) (now : Nat) :
    schedulNextPoll cfg s now =
      { s with pollTimer :=
          if s.isRunning then
            some (now + (if s.circuitBreakerOpen then cfg.circuitBreakerTimeout
              else cfg.pollInterval))
          else s.pollTimer } := by
  unfold schedulNextPoll
  split <;> rfl

theorem handleSuccessfulFetch_metrics (s : ConnState) (d : Option RawRecord)
    (rt now : Nat) :
    (handleSuccessfulFetch s d rt now).1.metrics =
      { s.metrics with
        successfulFetches := s.metrics.successfulFetches + 1
        avgResponseTime := updateAvgResponseTime (s.metrics.successfulFetches + 1)
          s.metrics.avgResponseTime rt
        lastFetchTime := some now } := by
  unfold handleSuccessfulFetch closeCircuitBreaker
  rcases hb : s.circuitBreakerOpen <;> cases d <;> simp [hb]

theorem handleSuccessfulFetch_closes (s : ConnState) (d : Option RawRecord)
    (rt now : Nat) :
    (handleSuccessfulFetch s d rt now).1.circuitBreakerOpen = false := by
  unfold handleSuccessfulFetch closeCircuitBreaker
  rcases hb : s.circuitBreakerOpen <;> cases d <;> simp [hb]

theorem handleSuccessfulFetch_state (s : ConnState) (d : Option RawRecord)
    (rt now : Nat) (hb : s.circuitBreakerOpen = false) :
    handleSuccessfulFetch s d rt now =
      ({ s with
          metrics := { s.metrics with
            successfulFetches := s.metrics.successfulFetches + 1
            avgResponseTime := updateAvgResponseTime (s.metrics.successfulFetches + 1)
              s.metrics.avgResponseTime rt
            lastFetchTime := some now }
          lastSuccessTime := some now
          retryCount := 0 },
        match d with
        | some r => [ConnEvent.data r]
        | none => []) := by
  unfold handleSuccessfulFetch closeCircuitBreaker
  cases d <;> simp [hb]

theorem handleFailedFetch_metrics (cfg : ConnConfig) (s : ConnState) (m : String)
    (now : Nat) :
    (handleFailedFetch cfg s m now).1.metrics =
      { s.metrics with failedFetches := s.metrics.failedFetches + 1 } := by
  unfold handleFailedFetch openCircuitBreaker
  rcases hb : s.circuitBreakerOpen
  · simp only [hb]
    split <;> simp
  · simp [hb]

theorem handleFailedFetch_state (cfg : ConnConfig) (s : ConnState) (m : String)
    (now : Nat) (hb : s.circuitBreakerOpen = false) :
    (handleFailedFetch cfg s m now).1 =
      if cfg.maxRetries ≤ s.retryCount + 1 then
        { s with
          metrics := { s.metrics with failedFetches := s.metrics.failedFetches + 1 }
          retryCount := s.retryCount + 1
          circuitBreakerOpen := true
          circuitBreakerTimer := some (now + cfg.circuitBreakerTimeout) }
      else
        { s with
          metrics := { s.metrics with failedFetches := s.metrics.failedFetches + 1 }
          retryCount := s.retryCount + 1 } := by
  unfold handleFailedFetch openCircuitBreaker
  simp only [hb, ge_iff_le]
  split <;> simp_all

theorem handleSuccessfulFetch_isRunning (s : ConnState) (d : Option RawRecord)
    (rt now : Nat) : (handleSuccessfulFetch s d rt now).1.isRunning = s.isRunning := by
  unfold handleSuccessfulFetch closeCircuitBreaker
  rcases hb : s.circuitBreakerOpen <;> cases d <;> simp [hb]

theorem handleSuccessfulFetch_retryCount (s : ConnState) (d : Option RawRecord)
    (rt now : Nat) : (handleSuccessfulFetch s d rt now).1.retryCount = 0 := by
  unfold handleSuccessfulFetch closeCircuitBreaker
  rcases hb : s.circuitBreakerOpen <;> cases d <;> simp [hb]

theorem handleSuccessfulFetch_lastSuccessTime (s : ConnState) (d : Option RawRecord)
    (rt now : Nat) : (handleSuccessfulFetch s d rt now).1.lastSuccessTime = some now := by
  unfold handleSuccessfulFetch closeCircuitBreaker
  rcases hb : s.circuitBreakerOpen <;> cases d <;> simp [hb]

theorem handleFailedFetch_isRunning (cfg : ConnConfig) (s : ConnState) (m : String)
    (now : Nat) : (handleFailedFetch cfg s m now).1.isRunning = s.isRunning := by
  unfold handleFailedFetch openCircuitBreaker
  rcases hb : s.circuitBreakerOpen
  · simp only [hb]
    split <;> simp
  · simp [hb]

theorem handleFailedFetch_retryCount (cfg : ConnConfig) (s : ConnState) (m : String)
    (now : Nat) : (handleFailedFetch cfg s m now).1.retryCount = s.retryCount + 1 := by
  unfold handleFailedFetch openCircuitBreaker
  rcases hb : s.circuitBreakerOpen
  · simp only [hb]
    split <;> simp
  · simp [hb]

theorem handleFailedFetch_open_of_open (cfg : ConnConfig) (s : ConnState) (m : String)
    (now : Nat) (hb : s.circuitBreakerOpen = true) :
    (handleFailedFetch cfg s m now).1.circuitBreakerOpen = true := by
  unfold handleFailedFetch openCircuitBreaker
  simp [hb]

theorem pollData_not_running (cfg : ConnConfig) (s : ConnState) (now : Nat)
    (f : FetchOutcome) (h : s.isRunning = false) : pollData cfg s now f = (s, []) := by
  unfold pollData
  simp [h]

theorem pollData_skip (cfg : ConnConfig) (s : ConnState) (now : Nat) (f : FetchOutcome)
    (hr : s.isRunning = true) (hb : s.circuitBreakerOpen = true) :
    pollData cfg s now f =
      ({ s with
          lastPollTime := some now
          metrics := { s.metrics with totalFetches := s.metrics.totalFetches + 1 }
          pollTimer := some (now + cfg.circuitBreakerTimeout) }, []) := by
  unfold pollData schedulNextPoll
  simp [hr, hb]

theorem pollData_closed_success (cfg : ConnConfig) (s : ConnState) (now : Nat)
    (d : Option RawRecord) (lat : Nat)
    (hr : s.isRunning = true) (hb : s.circuitBreakerOpen = false) :
    pollData cfg s now (.success d lat) =
      (schedulNextPoll cfg
          (handleSuccessfulFetch
            { s with
                lastPollTime := some now
                metrics := { s.metrics with totalFetches := s.metrics.totalFetches + 1 } }
            d lat (now + lat)).1 (now + lat),
        (handleSuccessfulFetch
          { s with
              lastPollTime := some now
              metrics := { s.metrics with totalFetches := s.metrics.totalFetches + 1 } }
          d lat (now + lat)).2) := by
  unfold pollData
  simp [hr, hb, FetchOutcome.latency]

theorem pollData_closed_failure (cfg : ConnConfig) (s : ConnState) (now : Nat)
    (m : String) (lat : Nat)
    (hr : s.isRunning = true) (hb : s.circuitBreakerOpen = false) :
    pollData cfg s now (.failure m lat) =
      (schedulNextPoll cfg
          (handleFailedFetch cfg
            { s with
                lastPollTime := some now
                metrics := { s.metrics with totalFetches := s.metrics.totalFetches + 1 } }
            m (now + lat)).1 (now + lat),
        (handleFailedFetch cfg
          { s with
              lastPollTime := some now
              metrics := { s.metrics with totalFetches := s.metrics.totalFetches + 1 } }
          m (now + lat)).2) := by
  unfold pollData
  simp [hr, hb, FetchOutcome.latency]

theorem pollData_isRunning (cfg : ConnConfig) (s : ConnState) (now : Nat)
    (f : FetchOutcome) : (pollData cfg s now f).1.isRunning = s.isRunning := by
  rcases hr : s.isRunning
  · rw [pollData_not_running cfg s now f hr]
    exact hr
  · rcases hb : s.circuitBreakerOpen
    · rcases f with ⟨d, lat⟩ | ⟨m, lat⟩
      · rw [pollData_closed_success cfg s now d lat hr hb]
        simp [schedulNextPoll_eq, handleSuccessfulFetch_isRunning, hr]
      · rw [pollData_closed_failure cfg s now m lat hr hb]
        simp [schedulNextPoll_eq, handleFailedFetch_isRunning, hr]
    · rw [pollData_skip cfg s now f hr hb]
      exact hr

theorem pollData_open_stays (cfg : ConnConfig) (s : ConnState) (now : Nat)
    (f : FetchOutcome) (hb : s.circuitBreakerOpen = true) :
    (pollData cfg s now f).1.circuitBreakerOpen = true := by
  rcases hr : s.isRunning
  · rw [pollData_not_running cfg s now f hr]
    exact hb
  · rw [pollData_skip cfg s now f hr hb]
    exact hb

theorem pollCycles_open_stays (cfg : ConnConfig) :
    ∀ (l : List (Nat × FetchOutcome)) (s : ConnState),
    s.circuitBreakerOpen = true → (pollCycles cfg s l).circuitBreakerOpen = true := by
  intro l
  induction l with
  | nil => intro s hb; exact hb
  | cons p rest ih =>
    intro s hb
    exact ih _ (pollData_open_stays cfg s p.1 p.2 hb)

/-- Sum of a list of latencies as a rational. -/
def ratSum (l : List Nat) : ℚ := (l.map (Nat.cast : Nat → ℚ)).sum

theorem ratSum_nil : ratSum [] = 0 := rfl

theorem ratSum_cons (a : Nat) (l : List Nat) : ratSum (a :: l) = (a : ℚ) + ratSum l := by
  simp [ratSum]

theorem updateAvg_mul (n : Nat) (avg : ℚ) (lat : Nat) :
    updateAvgResponseTime (n + 1) avg lat * ((n + 1 : Nat) : ℚ)
      = avg * (n : ℚ) + (lat : ℚ) := by
  unfold updateAvgResponseTime
  have hne : ((n + 1 : Nat) : ℚ) ≠ 0 := Nat.cast_ne_zero.mpr (Nat.succ_ne_zero n)
  rw [div_mul_cancel₀ _ hne]
  push_cast
  ring

theorem runOutcomes_metrics (cfg : ConnConfig) :
    ∀ (l : List (Nat × FetchOutcome)) (s : ConnState),
    (runOutcomes cfg s l).metrics.successfulFetches
        = s.metrics.successfulFetches + (successLatencies l).length
    ∧ (runOutcomes cfg s l).metrics.avgResponseTime
          * (((runOutcomes cfg s l).metrics.successfulFetches : Nat) : ℚ)
        = s.metrics.avgResponseTime * ((s.metrics.successfulFetches : Nat) : ℚ)
          + ratSum (successLatencies l) := by
  intro l
  induction l with
  | nil => intro s; simp [runOutcomes, successLatencies, ratSum]
  | cons p rest ih =>
    intro s
    rcases p with ⟨now, f⟩
    rcases f with ⟨d, lat⟩ | ⟨m, lat⟩
    · have hstep : runOutcomes cfg s ((now, FetchOutcome.success d lat) :: rest)
          = runOutcomes cfg (applyFetchOutcome cfg s now (.success d lat)) rest := rfl
      have hm : (applyFetchOutcome cfg s now (.success d lat)).metrics.successfulFetches
            = s.metrics.successfulFetches + 1 := by
        unfold applyFetchOutcome
        rw [handleSuccessfulFetch_metrics]
      have hav : (applyFetchOutcome cfg s now (.success d lat)).metrics.avgResponseTime
            = updateAvgResponseTime (s.metrics.successfulFetches + 1)
                s.metrics.avgResponseTime lat := by
        unfold applyFetchOutcome
        rw [handleSuccessfulFetch_metrics]
      obtain ⟨ih1, ih2⟩ := ih (applyFetchOutcome cfg s now (.success d lat))
      have hsl : successLatencies ((now, FetchOutcome.success d lat) :: rest)
          = lat :: successLatencies rest := rfl
      constructor
      · rw [hstep, ih1, hm, hsl]
        simp
        omega
      · rw [hstep, ih2, hm, hav, hsl, ratSum_cons, updateAvg_mul]
        ring
    · have hstep : runOutcomes cfg s ((now, FetchOutcome.failure m lat) :: rest)
          = runOutcomes cfg (applyFetchOutcome cfg s now (.failure m lat)) rest := rfl
      have hm : (applyFetchOutcome cfg s now (.failure m lat)).metrics.successfulFetches
            = s.metrics.successfulFetches := by
        unfold applyFetchOutcome
        rw [handleFailedFetch_metrics]
      have hav : (applyFetchOutcome cfg s now (.failure m lat)).metrics.avgResponseTime
            = s.metrics.avgResponseTime := by
        unfold applyFetchOutcome
        rw [handleFailedFetch_metrics]
      obtain ⟨ih1, ih2⟩ := ih (applyFetchOutcome cfg s now (.failure m lat))
      have hsl : successLatencies ((now, FetchOutcome.failure m lat) :: rest)
          = successLatencies rest := rfl
      refine ⟨?_, ?_⟩
      · rw [hstep, ih1, hm, hsl]
      · rw [hstep, ih2, hm, hav, hsl]

/-- **C6** For every connector and every `N ≥ 1`, after `N` successful
fetches with latencies `L1..LN` (with any number of interleaved failed
fetches), the stored `avgResponseTime` equals the arithmetic mean
`(L1+...+LN)/N`; the incremental update
`avg' = avg + (latency - avg)/successCount` computes exactly the running
mean over successful attempts only. -/
theorem avgResponseTime_running_mean (cfg : ConnConfig) (s : ConnState)
    (l : List (Nat × FetchOutcome))
    (h0 : s.metrics.successfulFetches = 0)
    (h1 : s.metrics.avgResponseTime = 0)
    (hN : 1 ≤ (successLatencies l).length) :
    (runOutcomes cfg s l).metrics.avgResponseTime
        = ratSum (successLatencies l) / (((successLatencies l).length : Nat) : ℚ)
    ∧ (∀ (n : Nat) (avg : ℚ) (lat : Nat), 1 ≤ n →
        updateAvgResponseTime n avg lat = avg + ((lat : ℚ) - avg) / (n : ℚ)) := by
  obtain ⟨hsucc, havg⟩ := runOutcomes_metrics cfg l s
  constructor
  · have hlen : (((successLatencies l).length : Nat) : ℚ) ≠ 0 :=
      Nat.cast_ne_zero.mpr (by omega)
    have hsucc' : (runOutcomes cfg s l).metrics.successfulFetches
        = (successLatencies l).length := by
      rw [hsucc, h0]
      omega
    rw [hsucc', h0, h1] at havg
    rw [eq_div_iff hlen]
    simpa using havg
  · intro n avg lat hn
    have hne : ((n : Nat) : ℚ) ≠ 0 := Nat.cast_ne_zero.mpr (by omega)
    unfold updateAvgResponseTime
    field_simp
    ring

/-- Concrete trace for the C6 witness: two successes (latencies 4 and 8)
with an interleaved failure. -/
def lC6 : List (Nat × FetchOutcome) :=
  [(0, .success none 4), (5, .failure "boom" 7), (9, .success (some {}) 8)]

/-- Witness for C6 at a concrete trace. -/
theorem avgResponseTime_running_mean_witness :
    (({} : ConnState).metrics.successfulFetches = 0)
    ∧ (({} : ConnState).metrics.avgResponseTime = 0)
    ∧ (1 ≤ (successLatencies lC6).length)
    ∧ ((runOutcomes {} {} lC6).metrics.avgResponseTime
          = ratSum (successLatencies lC6) / (((successLatencies lC6).length : Nat) : ℚ)
        ∧ (∀ (n : Nat) (avg : ℚ) (lat : Nat), 1 ≤ n →
            updateAvgResponseTime n avg lat = avg + ((lat : ℚ) - avg) / (n : ℚ))) :=
  ⟨rfl, rfl, by decide, avgResponseTime_running_mean {} {} lC6 rfl rfl (by decide)⟩

theorem failures_open_breaker (cfg : ConnConfig) :
    ∀ (l : List (Nat × FetchOutcome)) (s : ConnState),
    (∀ p ∈ l, ∃ m lat, p.2 = FetchOutcome.failure m lat) →
    s.isRunning = true → s.circuitBreakerOpen = false →
    cfg.maxRetries ≤ s.retryCount + l.length → 1 ≤ l.length →
    (pollCycles cfg s l).circuitBreakerOpen = true := by
  intro l
  induction l with
  | nil => intro s _ _ _ _ hlen; simp at hlen
  | cons p rest ih =>
    intro s hfail hr hb hcnt _
    obtain ⟨m, lat, hp⟩ := hfail p (List.mem_cons_self p rest)
    have hstep : pollCycles cfg s (p :: rest)
        = pollCycles cfg (pollData cfg s p.1 p.2).1 rest := rfl
    rw [hstep, hp]
    rw [hp] at hstep
    have hpoll := pollData_closed_failure cfg s p.1 m lat hr hb
    set sb : ConnState :=
      { s with
          lastPollTime := some p.1
          metrics := { s.metrics with totalFetches := s.metrics.totalFetches + 1 } } with hsb
    have hstate := handleFailedFetch_state cfg sb m (p.1 + lat) (by simp [hsb, hb])
    by_cases hmax : cfg.maxRetries ≤ s.retryCount + 1
    · -- the breaker opens on this failure and stays open
      have hopen : (pollData cfg s p.1 (FetchOutcome.failure m lat)).1.circuitBreakerOpen
          = true := by
        rw [hpoll]
        simp only [schedulNextPoll_eq]
        rw [hstate]
        rw [if_pos (by simp [hsb]; omega)]
      exact pollCycles_open_stays cfg rest _ hopen
    · -- still closed: retry count grew by one, recurse
      have hs1 : (pollData cfg s p.1 (FetchOutcome.failure m lat)).1
          = { sb with
              metrics := { sb.metrics with failedFetches := sb.metrics.failedFetches + 1 }
              retryCount := sb.retryCount + 1
              pollTimer := some (p.1 + lat + cfg.pollInterval) } := by
        rw [hpoll, hstate, if_neg (by simp [hsb]; omega)]
        simp only [schedulNextPoll_eq]
        simp [hsb, hr, hb]
      rw [hs1]
      apply ih
      · intro q hq; exact hfail q (List.mem_cons_of_mem p hq)
      · simp [hsb, hr]
      · simp [hsb, hb]
      · simp only [List.length_cons] at hcnt
        simp [hsb]
        omega
      · simp only [List.length_cons] at hcnt
        have : cfg.maxRetries > s.retryCount + 1 := by omega
        omega

/-- **C1** For every connector, after `maxConsecutiveFailures`
(`config.maxRetries`) consecutive failed fetches the circuit breaker is
open, and while the breaker is open every poll cycle skips the fetch
entirely (the cycle's result does not depend on the fetch outcome and the
counters other than `totalFetches` are untouched) and schedules the next
cycle after the breaker cool-down duration (`circuitBreakerTimeout`)
rather than the normal poll interval; the breaker stays open across poll
cycles until the cool-down timer fires (`closeCircuitBreaker`). -/
theorem breaker_trips_and_skips (cfg : ConnConfig) :
    (∀ (s : ConnState) (l : List (Nat × FetchOutcome)),
      (∀ p ∈ l, ∃ m lat, p.2 = FetchOutcome.failure m lat) →
      s.isRunning = true → s.circuitBreakerOpen = false → s.retryCount = 0 →
      l.length = cfg.maxRetries → 1 ≤ cfg.maxRetries →
      (pollCycles cfg s l).circuitBreakerOpen = true)
    ∧ (∀ (s : ConnState) (now : Nat) (f f' : FetchOutcome),
      s.isRunning = true → s.circuitBreakerOpen = true →
      pollData cfg s now f = pollData cfg s now f'
      ∧ (pollData cfg s now f).2 = []
      ∧ (pollData cfg s now f).1.metrics.successfulFetches = s.metrics.successfulFetches
      ∧ (pollData cfg s now f).1.metrics.failedFetches = s.metrics.failedFetches
      ∧ (pollData cfg s now f).1.pollTimer = some (now + cfg.circuitBreakerTimeout))
    ∧ (∀ (s : ConnState) (l : List (Nat × FetchOutcome)),
      s.circuitBreakerOpen = true → (pollCycles cfg s l).circuitBreakerOpen = true)
    ∧ (∀ s : ConnState, (closeCircuitBreaker s).1.circuitBreakerOpen = false) := by
  refine ⟨?_, ?_, fun s l => pollCycles_open_stays cfg l s, ?_⟩
  · intro s l hfail hr hb hrc hlen hmax
    exact failures_open_breaker cfg l s hfail hr hb (by omega) (by omega)
  · intro s now f f' hr hb
    rw [pollData_skip cfg s now f hr hb, pollData_skip cfg s now f' hr hb]
    exact ⟨rfl, rfl, rfl, rfl, rfl⟩
  · intro s
    rcases h : s.circuitBreakerOpen <;> simp [closeCircuitBreaker, h]

/-- Fresh running connector for the C1 witness. -/
def sC1 : ConnState := { isRunning := true }

/-- Three consecutive failed poll cycles (`maxRetries = 3` by default). -/
def lC1 : List (Nat × FetchOutcome) :=
  [(0, .failure "fetch failed" 1), (30000, .failure "fetch failed" 1),
    (60000, .failure "fetch failed" 1)]

/-- Witness for C1: the default configuration opens the breaker after
three straight failures. -/
theorem breaker_trips_and_skips_witness :
    (sC1.isRunning = true) ∧ (sC1.circuitBreakerOpen = false) ∧ (sC1.retryCount = 0)
    ∧ (lC1.length = ({} : ConnConfig).maxRetries) ∧ (1 ≤ ({} : ConnConfig).maxRetries)
    ∧ (pollCycles {} sC1 lC1).circuitBreakerOpen = true :=
  ⟨rfl, rfl, rfl, rfl, by decide,
    (breaker_trips_and_skips {}).1 sC1 lC1
      (by
        intro p hp
        fin_cases hp <;> exact ⟨_, _, rfl⟩)
      rfl rfl rfl rfl (by decide)⟩

/-- Connector state with an open breaker, for the C10 witness. -/
def sOpenC10 : ConnState := { isRunning := true, circuitBreakerOpen := true, retryCount := 3 }

/-- Fresh running connector for the C9 witness. -/
def sC9 : ConnState := { isRunning := true }

theorem pollData_metrics_counts (cfg : ConnConfig) (s : ConnState) (now : Nat)
    (f : FetchOutcome) (hr : s.isRunning = true) :
    (pollData cfg s now f).1.metrics.totalFetches = s.metrics.totalFetches + 1
    ∧ (pollData cfg s now f).1.metrics.successfulFetches
          + (pollData cfg s now f).1.metrics.failedFetches
        ≤ s.metrics.successfulFetches + s.metrics.failedFetches + 1 := by
  rcases hb : s.circuitBreakerOpen
  · rcases f with ⟨d, lat⟩ | ⟨m, lat⟩
    · rw [pollData_closed_success cfg s now d lat hr hb]
      simp [schedulNextPoll_eq, handleSuccessfulFetch_metrics]
      omega
    · rw [pollData_closed_failure cfg s now m lat hr hb]
      simp [schedulNextPoll_eq, handleFailedFetch_metrics]
      omega
  · rw [pollData_skip cfg s now f hr hb]
    simp

theorem pollCycles_counts_le (cfg : ConnConfig) :
    ∀ (l : List (Nat × FetchOutcome)) (s : ConnState),
    s.metrics.successfulFetches + s.metrics.failedFetches ≤ s.metrics.totalFetches →
    (pollCycles cfg s l).metrics.successfulFetches
        + (pollCycles cfg s l).metrics.failedFetches
      ≤ (pollCycles cfg s l).metrics.totalFetches := by
  intro l
  induction l with
  | nil => intro s h; exact h
  | cons p rest ih =>
    intro s h
    have hstep : pollCycles cfg s (p :: rest)
        = pollCycles cfg (pollData cfg s p.1 p.2).1 rest := rfl
    rw [hstep]
    apply ih
    rcases hr : s.isRunning
    · rw [pollData_not_running cfg s p.1 p.2 hr]
      exact h
    · obtain ⟨h1, h2⟩ := pollData_metrics_counts cfg s p.1 p.2 hr
      omega

/-- **C10** Every poll cycle increments `totalFetches` before the breaker
check, including cycles in which the open breaker skips the fetch;
consequently `successfulFetches + failedFetches = totalFetches` fails in
general (only `≤` is an invariant), and the `successRate` reported by
`getHealth` uses a denominator that counts skipped breaker-open cycles as
attempts. -/
theorem totalFetches_counts_skipped (cfg : ConnConfig) :
    (∀ (s : ConnState) (now : Nat) (f : FetchOutcome),
      s.isRunning = true → s.circuitBreakerOpen = true →
      (pollData cfg s now f).1.metrics.totalFetches = s.metrics.totalFetches + 1
      ∧ (pollData cfg s now f).1.metrics.successfulFetches = s.metrics.successfulFetches
      ∧ (pollData cfg s now f).1.metrics.failedFetches = s.metrics.failedFetches)
    ∧ (∀ (l : List (Nat × FetchOutcome)) (s : ConnState),
      s.metrics.successfulFetches + s.metrics.failedFetches ≤ s.metrics.totalFetches →
      (pollCycles cfg s l).metrics.successfulFetches
          + (pollCycles cfg s l).metrics.failedFetches
        ≤ (pollCycles cfg s l).metrics.totalFetches)
    ∧ (∃ (s : ConnState) (now : Nat) (f : FetchOutcome),
      s.isRunning = true
      ∧ s.metrics.successfulFetches + s.metrics.failedFetches = s.metrics.totalFetches
      ∧ (pollData cfg s now f).1.metrics.successfulFetches
          + (pollData cfg s now f).1.metrics.failedFetches
        < (pollData cfg s now f).1.metrics.totalFetches)
    ∧ (∀ (s : ConnState) (now now' : Nat) (f : FetchOutcome),
      s.isRunning = true → s.circuitBreakerOpen = true →
      (getHealth cfg (pollData cfg s now f).1 now').successRate
        = (s.metrics.successfulFetches : ℚ) / ((s.metrics.totalFetches + 1 : Nat) : ℚ)) := by
  refine ⟨?_, pollCycles_counts_le cfg, ?_, ?_⟩
  · intro s now f hr hb
    rw [pollData_skip cfg s now f hr hb]
    exact ⟨rfl, rfl, rfl⟩
  · refine ⟨{ isRunning := true, circuitBreakerOpen := true }, 0,
      FetchOutcome.success none 0, rfl, rfl, ?_⟩
    rw [pollData_skip cfg _ 0 _ rfl rfl]
    simp
  · intro s now now' f hr hb
    rw [pollData_skip cfg s now f hr hb]
    unfold getHealth
    simp

/-- Witness for C10: one skipped cycle on an open breaker. -/
theorem totalFetches_counts_skipped_witness :
    (sOpenC10.isRunning = true) ∧ (sOpenC10.circuitBreakerOpen = true)
    ∧ ((pollData {} sOpenC10 100 (.success (some {}) 5)).1.metrics.totalFetches
          = sOpenC10.metrics.totalFetches + 1
      ∧ (pollData {} sOpenC10 100 (.success (some {}) 5)).1.metrics.successfulFetches
          = sOpenC10.metrics.successfulFetches
      ∧ (pollData {} sOpenC10 100 (.success (some {}) 5)).1.metrics.failedFetches
          = sOpenC10.metrics.failedFetches) :=
  ⟨rfl, rfl,
    (totalFetches_counts_skipped {}).1 sOpenC10 100 (.success (some {}) 5) rfl rfl⟩

/-- **C9** If the fetch resolves with a falsy (`null`) result, the poll
cycle still counts a successful attempt — `successfulFetches` incremented,
`retryCount` reset, `lastSuccessTime` updated, latency folded into the
average, breaker closed if it was open — but emits no `data` event, so the
supervisor state (in particular the entry's `dataCount` and
`lastDataReceived`) is unchanged by the cycle's emissions. -/
theorem nullFetch_counts_success_no_emit (cfg : ConnConfig) (s : ConnState)
    (now lat : Nat) (hr : s.isRunning = true) (hb : s.circuitBreakerOpen = false) :
    (pollData cfg s now (.success none lat)).1.metrics.successfulFetches
        = s.metrics.successfulFetches + 1
    ∧ (pollData cfg s now (.success none lat)).1.retryCount = 0
    ∧ (pollData cfg s now (.success none lat)).1.lastSuccessTime = some (now + lat)
    ∧ (pollData cfg s now (.success none lat)).1.circuitBreakerOpen = false
    ∧ (pollData cfg s now (.success none lat)).1.metrics.avgResponseTime
        = updateAvgResponseTime (s.metrics.successfulFetches + 1)
            s.metrics.avgResponseTime lat
    ∧ (pollData cfg s now (.success none lat)).2 = []
    ∧ (∀ (sup : SupState) (name : String) (nowS : Nat) (rId rQ : String)
        (ext : Except String Unit),
        dispatchEvents sup name (pollData cfg s now (.success none lat)).2
            nowS rId rQ ext
          = sup)
    ∧ (∀ (s' : ConnState) (rt n' : Nat),
        (handleSuccessfulFetch s' none rt n').1.circuitBreakerOpen = false
        ∧ ∀ d, ConnEvent.data d ∉ (handleSuccessfulFetch s' none rt n').2) := by
  have hevs : (pollData cfg s now (.success none lat)).2 = [] := by
    rw [pollData_closed_success cfg s now none lat hr hb]
    rw [handleSuccessfulFetch_state _ none lat (now + lat) (by simp [hb])]
  refine ⟨?_, ?_, ?_, ?_, ?_, hevs, ?_, ?_⟩
  · rw [pollData_closed_success cfg s now none lat hr hb]
    simp [schedulNextPoll_eq, handleSuccessfulFetch_metrics]
  · rw [pollData_closed_success cfg s now none lat hr hb]
    simp [schedulNextPoll_eq, handleSuccessfulFetch_retryCount]
  · rw [pollData_closed_success cfg s now none lat hr hb]
    simp [schedulNextPoll_eq, handleSuccessfulFetch_lastSuccessTime]
  · rw [pollData_closed_success cfg s now none lat hr hb]
    simp [schedulNextPoll_eq, handleSuccessfulFetch_closes]
  · rw [pollData_closed_success cfg s now none lat hr hb]
    simp [schedulNextPoll_eq, handleSuccessfulFetch_metrics]
  · intro sup name nowS rId rQ ext
    rw [hevs]
    rfl
  · intro s' rt n'
    constructor
    · exact handleSuccessfulFetch_closes s' none rt n'
    · intro d
      unfold handleSuccessfulFetch closeCircuitBreaker
      rcases h : s'.circuitBreakerOpen <;> simp [h]

/-- Witness for C9 at a fresh running connector. -/
theorem nullFetch_counts_success_no_emit_witness :
    (sC9.isRunning = true) ∧ (sC9.circuitBreakerOpen = false)
    ∧ ((pollData {} sC9 40 (.success none 6)).1.metrics.successfulFetches
        = sC9.metrics.successfulFetches + 1
      ∧ (pollData {} sC9 40 (.success none 6)).1.retryCount = 0
      ∧ (pollData {} sC9 40 (.success none 6)).1.lastSuccessTime = some (40 + 6)
      ∧ (pollData {} sC9 40 (.success none 6)).1.circuitBreakerOpen = false
      ∧ (pollData {} sC9 40 (.success none 6)).1.metrics.avgResponseTime
          = updateAvgResponseTime (sC9.metrics.successfulFetches + 1)
              sC9.metrics.avgResponseTime 6
      ∧ (pollData {} sC9 40 (.success none 6)).2 = []
      ∧ (∀ (sup : SupState) (name : String) (nowS : Nat) (rId rQ : String)
          (ext : Except String Unit),
          dispatchEvents sup name (pollData {} sC9 40 (.success none 6)).2
              nowS rId rQ ext
            = sup)
      ∧ (∀ (s' : ConnState) (rt n' : Nat),
          (handleSuccessfulFetch s' none rt n').1.circuitBreakerOpen = false
          ∧ ∀ d, ConnEvent.data d ∉ (handleSuccessfulFetch s' none rt n').2)) :=
  ⟨rfl, rfl, nullFetch_counts_success_no_emit {} sC9 40 6 rfl rfl⟩

/-- A connector that is already running, with some history. -/
def runningConn : ConnState :=
  { isRunning := true
    retryCount := 1
    lastPollTime := some 50
    metrics :=
      { totalFetches := 4, successfulFetches := 3, failedFetches := 1
        avgResponseTime := 12, lastFetchTime := some 60 } }

/-- **C3, counterexample** `start()` on an already-running connector does
not raise `AlreadyRunningError`: it returns normally (after logging a
warning) with the state unchanged. -/
theorem start_already_running_counterexample :
    BaseConnector.start runningConn ≠ Except.error StartError.alreadyRunning
    ∧ BaseConnector.start runningConn = Except.ok (runningConn, []) := by
  constructor
  · intro h
    rw [show BaseConnector.start runningConn = Except.ok (runningConn, []) from rfl] at h
    exact Except.noConfusion h
  · rfl

/-- **C3, amended** Calling `start()` on a connector that is already running
logs a warning and returns normally (no `AlreadyRunningError` is raised),
leaving the connector's state — running flag, timers, metrics — unchanged
and emitting no signal. -/
theorem start_when_running_is_noop (s : ConnState) (h : s.isRunning = true) :
    BaseConnector.start s = Except.ok (s, []) := by
  unfold BaseConnector.start
  simp [h]

/-- Witness for the amended C3. -/
theorem start_when_running_is_noop_witness :
    (runningConn.isRunning = true)
    ∧ BaseConnector.start runningConn = Except.ok (runningConn, []) :=
  ⟨rfl, start_when_running_is_noop runningConn rfl⟩

/-- A running connector that has never had a successful fetch. -/
def sC4 : ConnState :=
  { isRunning := true
    retryCount := 0
    lastSuccessTime := none
    metrics := { totalFetches := 0, successfulFetches := 0, failedFetches := 0 } }

/-- **C4, counterexample** A connector with no success yet that has been
running since time 0, probed at `now = 120000 > 3 × pollInterval`, reports
`healthy`; the claim requires `unhealthy` for a connector with no success
that has been running at least `3 × pollInterval` (the code has no such
branch: a `null` `timeSinceLastSuccess` is falsy and skips the
`unhealthy` test). -/
theorem getHealth_no_success_counterexample :
    (sC4.lastSuccessTime = none)
    ∧ ((120000 : Nat) > 3 * ({} : ConnConfig).pollInterval)
    ∧ (getHealth {} sC4 120000).status = HealthStatus.healthy
    ∧ (getHealth {} sC4 120000).status ≠ HealthStatus.unhealthy := by
  refine ⟨rfl, by norm_num, rfl, by decide⟩

/-- **C4, amended** `getHealth()` reports, in priority order:
`circuit_breaker_open` if the breaker is open; else `unhealthy` if there
has been a success and `now - lastSuccessAt > 3 × pollInterval` (a
connector with no success yet is never reported unhealthy); else
`degraded` if `consecutiveFailures > 0`; else `healthy`; and it reports
`successRate = successes/totalAttempts` (0 when there were no attempts). -/
theorem getHealth_characterization (cfg : ConnConfig) (s : ConnState) (now : Nat) :
    (s.circuitBreakerOpen = true →
      (getHealth cfg s now).status = HealthStatus.circuitBreakerOpen)
    ∧ (s.circuitBreakerOpen = false → ∀ t, s.lastSuccessTime = some t →
        (now : Int) - t > 3 * (cfg.pollInterval : Int) →
        (getHealth cfg s now).status = HealthStatus.unhealthy)
    ∧ (s.circuitBreakerOpen = false → s.lastSuccessTime = none →
        (getHealth cfg s now).status
          = (if s.retryCount > 0 then HealthStatus.degraded else HealthStatus.healthy))
    ∧ (s.circuitBreakerOpen = false →
        (∀ t, s.lastSuccessTime = some t →
          (now : Int) - t ≤ 3 * (cfg.pollInterval : Int)) →
        (getHealth cfg s now).status
          = (if s.retryCount > 0 then HealthStatus.degraded else HealthStatus.healthy))
    ∧ ((getHealth cfg s now).successRate
        = (s.metrics.successfulFetches : ℚ) / (s.metrics.totalFetches : ℚ)) := by
  refine ⟨?_, ?_, ?_, ?_, ?_⟩
  · intro hb
    unfold getHealth
    simp [hb]
  · intro hb t ht hgt
    have hpos : (0 : Int) ≤ 3 * (cfg.pollInterval : Int) := by positivity
    have hne : (now : Int) - t ≠ 0 := by omega
    unfold getHealth
    simp [hb, ht, truthyNum, hne, hgt]
  · intro hb hnone
    unfold getHealth
    simp [hb, hnone, truthyNum]
  · intro hb hle
    rcases ht : s.lastSuccessTime with _ | t
    · unfold getHealth
      simp [hb, ht, truthyNum]
    · have := hle t ht
      have hnotgt : ¬((now : Int) - t > 3 * (cfg.pollInterval : Int)) := not_lt.mpr this
      unfold getHealth
      simp [hb, ht, truthyNum, hnotgt]
  · unfold getHealth
    rcases h : s.metrics.totalFetches with _ | k
    · simp [h]
    · simp [h]

/-- Connector state for the C4 witness: last success four poll intervals ago. -/
def sC4w : ConnState := { isRunning := true, lastSuccessTime := some 0 }

/-- Witness for the amended C4: a stale success is reported unhealthy. -/
theorem getHealth_characterization_witness :
    (sC4w.circuitBreakerOpen = false) ∧ (sC4w.lastSuccessTime = some 0)
    ∧ ((120000 : Int) - 0 > 3 * (({} : ConnConfig).pollInterval : Int))
    ∧ (getHealth {} sC4w 120000).status = HealthStatus.unhealthy :=
  ⟨rfl, rfl, by norm_num,
    (getHealth_characterization {} sC4w 120000).2.1 rfl 0 rfl (by norm_num)⟩

/-- **C2, counterexample** When the configured kafka backend fails to
initialize, the queue falls back to the memory buffer but `healthCheck()`
reports `connected = false` (the claim says `connected = true`): the
`isConnected` flag is only set on the success path of `setupQueue` and the
fallback path never sets it. -/
theorem queue_fallback_counterexample :
    (setupQueue QueueType.kafka (.error "ECONNREFUSED")).qtype = QueueType.memory
    ∧ MessageQueue.healthCheck (setupQueue QueueType.kafka (.error "ECONNREFUSED")) (.ok ())
        = { status := "healthy", connected := false } :=
  ⟨rfl, rfl⟩

/-- **C2, amended** If the configured queue backend fails to initialize,
the queue falls back permanently to the in-process memory buffer; after
this fallback, `publish` and `subscribe` succeed using the buffer, and
`healthCheck()` reports `status = "healthy"` but `connected = false`
(`isConnected` is set only when the configured backend initializes
successfully). -/
theorem queue_fallback_behaviour (t : QueueType) (ht : t ≠ QueueType.memory)
    (e : String) :
    (setupQueue t (.error e)).qtype = QueueType.memory
    ∧ (setupQueue t (.error e)).isConnected = false
    ∧ (∀ (topic : String) (payload : QPayload) (src : String) (now : Nat)
        (rand : String) (ext : Except String Unit), ∃ mq' mid,
        MessageQueue.publish (setupQueue t (.error e)) topic payload src now rand ext
          = Except.ok (mq', mid))
    ∧ (∀ topic, (MessageQueue.subscribe (setupQueue t (.error e)) topic).subscriptions
        = topic :: (setupQueue t (.error e)).subscriptions)
    ∧ (∀ ext, MessageQueue.healthCheck (setupQueue t (.error e)) ext
        = { status := "healthy", connected := false }) := by
  cases t with
  | memory => exact absurd rfl ht
  | kafka =>
    exact ⟨rfl, rfl, fun topic payload src now rand ext => ⟨_, _, rfl⟩,
      fun topic => rfl, fun ext => rfl⟩
  | redis =>
    exact ⟨rfl, rfl, fun topic payload src now rand ext => ⟨_, _, rfl⟩,
      fun topic => rfl, fun ext => rfl⟩

/-- Witness for the amended C2 with the kafka backend failing. -/
theorem queue_fallback_behaviour_witness :
    (QueueType.kafka ≠ QueueType.memory)
    ∧ (∀ ext, MessageQueue.healthCheck
          (setupQueue QueueType.kafka (.error "ECONNREFUSED")) ext
        = { status := "healthy", connected := false }) :=
  ⟨by decide,
    (queue_fallback_behaviour QueueType.kafka (by decide) "ECONNREFUSED").2.2.2.2⟩

/-- **C8, counterexample** Message-id uniqueness does not hold for every
sequence of timestamps and random draws: two calls in the same
millisecond that observe the same random draw produce identical ids, for
both generators. -/
theorem messageId_collision_counterexample :
    ¬ ([DataIngestionService.generateMessageId 5 "k3j9q2m1p",
        DataIngestionService.generateMessageId 5 "k3j9q2m1p"].Pairwise (· ≠ ·))
    ∧ ¬ ([MessageQueue.generateMessageId 5 "k3j9q2m1p",
        MessageQueue.generateMessageId 5 "k3j9q2m1p"].Pairwise (· ≠ ·)) := by
  constructor
  · intro h
    exact (List.pairwise_cons.mp h).1 _ (List.mem_singleton.mpr rfl) rfl
  · intro h
    exact (List.pairwise_cons.mp h).1 _ (List.mem_singleton.mpr rfl) rfl

/-- **C8, amended** Message ids are distinct whenever the
(timestamp, random-draw) pairs observed by the two calls are distinct
(draws having the code's fixed 9-character length); equality of ids
forces equality of both the timestamp and the draw, for the ingestion
(`ing_`) and the queue (`msg_`) generator alike. -/
theorem messageId_distinct_of_distinct_draws (t₁ t₂ : Nat) (r₁ r₂ : String)
    (hlen : r₁.length = r₂.length) (hne : (t₁, r₁) ≠ (t₂, r₂)) :
    DataIngestionService.generateMessageId t₁ r₁
        ≠ DataIngestionService.generateMessageId t₂ r₂
    ∧ MessageQueue.generateMessageId t₁ r₁ ≠ MessageQueue.generateMessageId t₂ r₂ := by
  constructor
  · intro h
    obtain ⟨ht, hr⟩ := messageId_inj "ing_" hlen h
    exact hne (by rw [ht, hr])
  · intro h
    obtain ⟨ht, hr⟩ := messageId_inj "msg_" hlen h
    exact hne (by rw [ht, hr])

/-- Witness for the amended C8: same millisecond, different draws. -/
theorem messageId_distinct_of_distinct_draws_witness :
    ("k3j9q2m1p".length = "k3j9q2m1q".length)
    ∧ (((5 : Nat), "k3j9q2m1p") ≠ ((5 : Nat), "k3j9q2m1q"))
    ∧ (DataIngestionService.generateMessageId 5 "k3j9q2m1p"
          ≠ DataIngestionService.generateMessageId 5 "k3j9q2m1q"
      ∧ MessageQueue.generateMessageId 5 "k3j9q2m1p"
          ≠ MessageQueue.generateMessageId 5 "k3j9q2m1q") :=
  ⟨rfl, by decide,
    messageId_distinct_of_distinct_draws 5 5 "k3j9q2m1p" "k3j9q2m1q" rfl (by decide)⟩

theorem getEntry_sendToDeadLetterQueue (sup : SupState) (name name' errMsg : String)
    (data : Option RawRecord) (now : Nat) (rand : String) (ext : Except String Unit) :
    getEntry (sendToDeadLetterQueue sup name' errMsg data now rand ext) name
      = getEntry sup name := by
  unfold sendToDeadLetterQueue
  dsimp only
  split <;> rfl

/-- The `QueueMessage` that `sendToDeadLetterQueue` publishes. -/
def dlqMessage (name msg : String) (d : Option RawRecord) (now : Nat)
    (rand : String) : QueueMessage :=
  { id := MessageQueue.generateMessageId now rand
    timestamp := now
    topic := "dead-letter-queue"
    data := QPayload.dead
      { originalData := d, errMessage := msg, errTimestamp := now
        connector := name, failureTime := now }
    metaSource := "data-ingestion-service" }

/-- Supervisor with one registered connector over the memory queue, for the
C5 counterexample. -/
def supC5 : SupState :=
  { connectors := [("mta", { registeredAt := 0 })]
    mq := setupQueue .memory (.ok ())
    deadLetterQueueEnabled := true }

/-- **C5, counterexample** A connector error with no record payload, with
dead-letter enabled: the entry's `errorCount` is incremented but nothing
is written to the dead-letter topic (`handleConnectorError` guards the
write with `deadLetterQueueEnabled && data`), while the claim requires a
`DeadLetterEntry` with a null payload. -/
theorem deadletter_requires_payload_counterexample :
    supC5.deadLetterQueueEnabled = true
    ∧ handleConnectorError supC5 "mta" "fetch failed" none 1000 "abc" (.ok ())
        = { supC5 with
            connectors := [("mta", { registeredAt := 0, errorCount := 1 })]
            totalErrorsHandled := 1 }
    ∧ bufGet (handleConnectorError supC5 "mta" "fetch failed" none 1000 "abc"
          (.ok ())).mq.messageBuffer "dead-letter-queue" = none := by
  refine ⟨rfl, by decide, by decide⟩

/-- **C5, amended** On a connector error received by the Supervisor the
entry's `errorCount` is incremented and `isHealthy` is forced false once
the count passes 5; a `DeadLetterEntry` is written to the dead-letter
topic only when the error carries a record payload — when the payload is
absent the queue is untouched. -/
theorem connector_error_handling (sup : SupState) (name msg : String)
    (data : Option RawRecord) (now : Nat) (rand : String) (ext : Except String Unit)
    (e₀ : RegistryEntry) (he : getEntry sup name = some e₀) :
    getEntry (handleConnectorError sup name msg data now rand ext) name
        = some { e₀ with
            errorCount := e₀.errorCount + 1
            isHealthy := if e₀.errorCount + 1 > 5 then false else e₀.isHealthy }
    ∧ (data = none → (handleConnectorError sup name msg data now rand ext).mq = sup.mq)
    ∧ (sup.deadLetterQueueEnabled = true → sup.mq.qtype = QueueType.memory →
        ∀ d, data = some d →
        bufGet (handleConnectorError sup name msg data now rand ext).mq.messageBuffer
            "dead-letter-queue"
          = some ((bufGet sup.mq.messageBuffer "dead-letter-queue").getD []
              ++ [dlqMessage name msg (some d) now rand])) := by
  refine ⟨?_, ?_, ?_⟩
  · have hmain : getEntry (updateEntry sup name fun e =>
        { e with
          errorCount := e.errorCount + 1
          isHealthy := if e.errorCount + 1 > 5 then false else e.isHealthy }) name
        = some { e₀ with
            errorCount := e₀.errorCount + 1
            isHealthy := if e₀.errorCount + 1 > 5 then false else e₀.isHealthy } := by
      rw [getEntry_updateEntry, he]
      rfl
    unfold handleConnectorError
    rw [he]
    dsimp only
    split
    · rw [getEntry_sendToDeadLetterQueue]
      exact hmain
    · exact hmain
  · intro hd
    subst hd
    unfold handleConnectorError
    rw [he]
    simp
    rfl
  · intro hdl hmem d hd
    subst hd
    unfold handleConnectorError
    rw [he]
    rw [if_pos ⟨hdl, rfl⟩]
    have hpub : MessageQueue.publish sup.mq "dead-letter-queue"
        (QPayload.dead
          { originalData := some d, errMessage := msg, errTimestamp := now
            connector := name, failureTime := now })
        "data-ingestion-service" now rand ext
        = Except.ok (publishToMemory sup.mq "dead-letter-queue"
            (dlqMessage name msg (some d) now rand),
            MessageQueue.generateMessageId now rand) := by
      unfold MessageQueue.publish dlqMessage
      rw [hmem]
    unfold sendToDeadLetterQueue
    dsimp only [updateEntry]
    rw [hpub]
    exact bufGet_publishToMemory_self sup.mq "dead-letter-queue" _

/-- Witness for the amended C5: sixth error with a payload present. -/
theorem connector_error_handling_witness :
    (getEntry supC5 "mta" = some { registeredAt := 0 })
    ∧ getEntry (handleConnectorError supC5 "mta" "boom" (some {}) 7 "r" (.ok ())) "mta"
        = some { registeredAt := 0, errorCount := 1,
                 isHealthy := (if 0 + 1 > 5 then false else true) } :=
  ⟨rfl,
    (connector_error_handling supC5 "mta" "boom" (some {}) 7 "r" (.ok ())
      { registeredAt := 0 } rfl).1⟩

/-- The `QueueMessage` that `publishRawData` appends for an enriched record. -/
def rawTopicMessage (name : String) (d : RawRecord) (now : Nat)
    (rId rQ : String) : QueueMessage :=
  { id := MessageQueue.generateMessageId now rQ
    timestamp := now
    topic := "raw-data"
    data := QPayload.raw
      { timestamp := d.timestamp
        source := d.source
        ingestion :=
          { connector := name
            receivedAt := now
            messageId := DataIngestionService.generateMessageId now rId } }
    metaSource := name }

theorem handleConnectorError_mq_some (sup : SupState) (name msg : String)
    (d : RawRecord) (now : Nat) (rand : String) (ext : Except String Unit)
    (hdl : sup.deadLetterQueueEnabled = true)
    (hmem : sup.mq.qtype = QueueType.memory) :
    (handleConnectorError sup name msg (some d) now rand ext).mq
      = publishToMemory sup.mq "dead-letter-queue"
          (dlqMessage name msg (some d) now rand) := by
  have hpub : MessageQueue.publish sup.mq "dead-letter-queue"
      (QPayload.dead
        { originalData := some d, errMessage := msg, errTimestamp := now
          connector := name, failureTime := now })
      "data-ingestion-service" now rand ext
      = Except.ok (publishToMemory sup.mq "dead-letter-queue"
          (dlqMessage name msg (some d) now rand),
          MessageQueue.generateMessageId now rand) := by
    unfold MessageQueue.publish dlqMessage
    rw [hmem]
  unfold handleConnectorError
  rcases hge : getEntry sup name with _ | e <;>
    dsimp only [updateEntry] <;>
    rw [if_pos ⟨hdl, rfl⟩] <;>
    unfold sendToDeadLetterQueue <;>
    dsimp only <;>
    rw [hpub]

/-- **C7, counterexample** An enriched record whose `source` is the empty
string — non-null — with an in-window, non-null timestamp is rejected by
`validateData` (the code tests truthiness, and `""` is falsy), so
validation does not accept exactly the records with non-null fields. -/
theorem validate_nonnull_counterexample :
    ((some "" : Option String) ≠ none)
    ∧ ((10000000000 - 3600000 : Int) ≤ 10000000000 - 1800000)
    ∧ ((10000000000 - 1800000 : Int) ≤ 10000000000 + 60000)
    ∧ validateData (some (10000000000 - 1800000)) (some "") 10000000000 = false := by
  refine ⟨by decide, by norm_num, by norm_num, by decide⟩

/-- **C7, amended** Validation accepts exactly records whose `timestamp`
is truthy (non-null and non-zero) and within `[now - 1h, now + 1min]`
and whose `source` is truthy (non-null and non-empty); in particular,
through `handleConnectorData`, a record with `timestamp = now - 2h` is
routed to the dead-letter path and not published, while a record with
`timestamp = now - 30min` (and truthy source) is published to the
`raw-data` topic. -/
theorem validation_window (sup : SupState) (name : String) (d : RawRecord)
    (now : Nat) (rId rQ : String) (ext : Except String Unit) (e₀ : RegistryEntry)
    (he : getEntry sup name = some e₀)
    (hmem : sup.mq.qtype = QueueType.memory)
    (hdl : sup.deadLetterQueueEnabled = true)
    (hsrc : truthyStr d.source = true)
    (hnow : (3600000 : Int) < (now : Int)) :
    (∀ (nowV : Int) (ts : Option Int) (src : Option String),
      validateData ts src nowV = true ↔
        ((∃ t, ts = some t ∧ t ≠ 0 ∧ nowV - 3600000 ≤ t ∧ t ≤ nowV + 60000)
          ∧ (∃ s, src = some s ∧ s ≠ "")))
    ∧ (d.timestamp = some ((now : Int) - 7200000) →
        bufGet (handleConnectorData sup name d now rId rQ ext).mq.messageBuffer
            "raw-data"
          = bufGet sup.mq.messageBuffer "raw-data"
        ∧ bufGet (handleConnectorData sup name d now rId rQ ext).mq.messageBuffer
            "dead-letter-queue"
          = some ((bufGet sup.mq.messageBuffer "dead-letter-queue").getD []
              ++ [dlqMessage name "Data validation failed" (some d) now rQ]))
    ∧ (d.timestamp = some ((now : Int) - 1800000) →
        bufGet (handleConnectorData sup name d now rId rQ ext).mq.messageBuffer
            "raw-data"
          = some ((bufGet sup.mq.messageBuffer "raw-data").getD []
              ++ [rawTopicMessage name d now rId rQ])) := by
  refine ⟨?_, ?_, ?_⟩
  · intro nowV ts src
    rcases ts with _ | t <;> rcases src with _ | s <;>
      simp [validateData, truthyNum, truthyStr]
    tauto
  · intro ht
    have hval : validateData d.timestamp d.source (now : Int) = false := by
      unfold validateData
      rw [ht]
      by_cases h0 : ((now : Int) - 7200000) = 0
      · simp [truthyNum, h0]
      · have h36 : ((now : Int) - 7200000) < (now : Int) - 3600000 := by omega
        simp [truthyNum, truthyStr, h0, hsrc, h36]
    have hmq : (handleConnectorData sup name d now rId rQ ext).mq
        = publishToMemory sup.mq "dead-letter-queue"
            (dlqMessage name "Data validation failed" (some d) now rQ) := by
      unfold handleConnectorData
      rw [he]
      dsimp only [updateEntry]
      rw [hval, if_neg Bool.false_ne_true]
      exact handleConnectorError_mq_some _ name "Data validation failed" d now rQ ext
        hdl hmem
    rw [hmq]
    constructor
    · exact bufGet_publishToMemory_other sup.mq (by decide) _
    · exact bufGet_publishToMemory_self sup.mq "dead-letter-queue" _
  · intro ht
    obtain ⟨sv, hs, hsne⟩ : ∃ sv, d.source = some sv ∧ sv ≠ "" := by
      rcases hsv : d.source with _ | sv
      · rw [hsv] at hsrc
        simp [truthyStr] at hsrc
      · rw [hsv] at hsrc
        simp [truthyStr] at hsrc
        exact ⟨sv, rfl, hsrc⟩
    have hval : validateData d.timestamp d.source (now : Int) = true := by
      unfold validateData
      rw [ht, hs]
      have h0 : ((now : Int) - 1800000) ≠ 0 := by omega
      have h36 : ¬(((now : Int) - 1800000) < (now : Int) - 3600000) := by omega
      have h60 : ¬(((now : Int) - 1800000) > (now : Int) + 60000) := by omega
      simp [truthyNum, truthyStr, h0, hsne, h36, h60]
    have hpub : MessageQueue.publish sup.mq "raw-data"
        (QPayload.raw
          { timestamp := d.timestamp
            source := d.source
            ingestion :=
              { connector := name
                receivedAt := now
                messageId := DataIngestionService.generateMessageId now rId } })
        name now rQ ext
        = Except.ok (publishToMemory sup.mq "raw-data"
            (rawTopicMessage name d now rId rQ),
            MessageQueue.generateMessageId now rQ) := by
      unfold MessageQueue.publish rawTopicMessage
      rw [hmem]
    have hmq : (handleConnectorData sup name d now rId rQ ext).mq
        = publishToMemory sup.mq "raw-data" (rawTopicMessage name d now rId rQ) := by
      unfold handleConnectorData
      rw [he]
      dsimp only [updateEntry]
      rw [hval, if_pos rfl, hpub]
    rw [hmq]
    exact bufGet_publishToMemory_self sup.mq "raw-data" _

/-- Record with an in-window timestamp (30 minutes old) and truthy source. -/
def dC7 : RawRecord :=
  { timestamp := some ((10000000000 : Int) - 1800000), source := some "mta-subway" }

/-- Witness for the amended C7: the 30-minute-old record is published. -/
theorem validation_window_witness :
    (getEntry supC5 "mta" = some { registeredAt := 0 })
    ∧ (supC5.mq.qtype = QueueType.memory)
    ∧ (supC5.deadLetterQueueEnabled = true)
    ∧ (truthyStr dC7.source = true)
    ∧ ((3600000 : Int) < ((10000000000 : Nat) : Int))
    ∧ (dC7.timestamp = some (((10000000000 : Nat) : Int) - 1800000))
    ∧ bufGet (handleConnectorData supC5 "mta" dC7 10000000000 "r1" "r2"
          (.ok ())).mq.messageBuffer "raw-data"
        = some ((bufGet supC5.mq.messageBuffer "raw-data").getD []
            ++ [rawTopicMessage "mta" dC7 10000000000 "r1" "r2"]) :=
  ⟨rfl, rfl, rfl, by decide, by norm_num, by decide,
    (validation_window supC5 "mta" dC7 10000000000 "r1" "r2" (.ok ())
      { registeredAt := 0 } rfl rfl rfl (by decide) (by norm_num)).2.2 (by decide)⟩

end UrbanIntel
